import Mathlib

/-!
Verification development for the brochure cost calculator
(`src/BrochureCalculator.tsx`).

The two pure functions of the source, `parseColorPages` and
`calculateBrochureBreakdown`, are embedded shallowly:

* JavaScript numbers holding money amounts become `ℚ` (the source only
  adds, subtracts and multiplies decimal literals);
* counts and page numbers become `Nat`;
* the `Set<number>` accumulator of the parser becomes a duplicate-free
  `List Nat` kept in insertion order (the iteration order of a JS `Set`);
* the German error strings of the parser carry exactly one of three
  shapes, so they are embedded as a tagged error type recording the same
  data the strings interpolate (offending token, offending value, bound).
-/

namespace Brochure

/-- A pricing tier: `{ min: number; price: number }`. -/
structure Tier where
  min : Nat
  price : ℚ
deriving Repr, DecidableEq

/-- `bwTiers` of the source. -/
def bwTiers : List Tier :=
  [⟨1000, 0.04⟩, ⟨500, 0.05⟩, ⟨250, 0.06⟩, ⟨100, 0.07⟩, ⟨50, 0.09⟩, ⟨1, 0.1⟩]

/-- `colorTiers` of the source. -/
def colorTiers : List Tier :=
  [⟨5000, 0.38⟩, ⟨1000, 0.18⟩, ⟨500, 0.28⟩, ⟨250, 0.35⟩, ⟨100, 0.43⟩,
   ⟨50, 0.69⟩, ⟨1, 0.84⟩]

/-- `getPrice` of the source: scan the tiers in order, return the price of
the first tier with `quantity >= tier.min`; if none matches, fall back to
the price of the last tier.  (The `[]` case is unreachable for the fixed
tables of the source.) -/
def getPrice (tiers : List Tier) (quantity : Nat) : ℚ :=
  match tiers with
  | [] => 0
  | t :: rest =>
    if t.min ≤ quantity then t.price
    else
      match rest with
      | [] => t.price
      | _ :: _ => getPrice rest quantity

/-- The `Breakdown` record of the source. -/
structure Breakdown where
  swCount : Nat
  effectiveSwCount : Nat
  swUnitPrice : ℚ
  swSurcharge : ℚ
  swTotal : ℚ
  colorCount : Nat
  effectiveColorCount : Nat
  colorUnitPrice : ℚ
  colorSurcharge : ℚ
  colorTotal : ℚ
  bindingCount : Nat
  bindingCost : ℚ
  totalCost : ℚ
deriving Repr, DecidableEq

/-- Whether an impression (a pair of logical page slots) counts toward the
billed total: `pair.some(p => p <= pagesPerBrochure)` in the source. -/
def impCounted (pagesPerBrochure : Nat) (pr : Nat × Nat) : Bool :=
  decide (pr.1 ≤ pagesPerBrochure) || decide (pr.2 ≤ pagesPerBrochure)

/-- Whether an impression is classified color:
`pair.some(p => p <= pagesPerBrochure && colorPages.includes(p))` in the
source. -/
def impColor (pagesPerBrochure : Nat) (colorPages : List Nat)
    (pr : Nat × Nat) : Bool :=
  (decide (pr.1 ≤ pagesPerBrochure) && colorPages.contains pr.1) ||
  (decide (pr.2 ≤ pagesPerBrochure) && colorPages.contains pr.2)

/-- The two impressions of sheet `j` (lines 110–117 of the source):
`[pageA, pageB]` and `[pageC, pageD]`. -/
def sheetImpressions (totalPages j : Nat) : List (Nat × Nat) :=
  [(totalPages - 2 * j, 1 + 2 * j), (2 + 2 * j, totalPages - (2 * j + 1))]

/-- The loop body of the imposition loop: updates the running
`(totalBW, totalColor)` pair for one impression. -/
def impStep (pagesPerBrochure : Nat) (colorPages : List Nat)
    (acc : Nat × Nat) (pr : Nat × Nat) : Nat × Nat :=
  if impCounted pagesPerBrochure pr then
    if impColor pagesPerBrochure colorPages pr then (acc.1, acc.2 + 1)
    else (acc.1 + 1, acc.2)
  else acc

/-- The imposition loop of `calculateBrochureBreakdown` (lines 109–125):
returns the per-brochure `(totalBW, totalColor)` counts. -/
def countImpressions (pagesPerBrochure : Nat) (colorPages : List Nat) :
    Nat × Nat :=
  let totalPages := (pagesPerBrochure + 3) / 4 * 4
  let sheets := totalPages / 4
  (List.range sheets).foldl
    (fun acc j =>
      (sheetImpressions totalPages j).foldl
        (impStep pagesPerBrochure colorPages) acc)
    (0, 0)

/-- The surcharge / subtotal computation (lines 137–156 of the source).
Returns `(swSurcharge, colorSurcharge, swCost, colorCost)`. -/
def surchargeCalc (isA3 : Bool) (totalBW totalColor effectiveBW effectiveColor : Nat)
    (swUnit colorUnit : ℚ) : ℚ × ℚ × ℚ × ℚ :=
  if 0 < totalColor + totalBW then
    if 0 < totalColor ∧ effectiveColor < 50 then
      let colorSurcharge : ℚ := if isA3 then 2.4 else 1.2
      (0, colorSurcharge,
        (totalBW : ℚ) * swUnit,
        colorSurcharge + ((totalColor : ℚ) - 1) * colorUnit)
    else if totalColor = 0 ∧ effectiveBW < 50 then
      let swSurcharge : ℚ := if isA3 then 0.9 else 0.45
      (swSurcharge, 0, swSurcharge + ((totalBW : ℚ) - 1) * swUnit, 0)
    else
      (0, 0, (totalBW : ℚ) * swUnit, (totalColor : ℚ) * colorUnit)
  else (0, 0, 0, 0)

/-- `calculateBrochureBreakdown` of the source.  `Math.ceil(p / 4) * 4`
becomes `(p + 3) / 4 * 4` on `Nat`. -/
def calculateBrochureBreakdown (pagesPerBrochure : Nat) (colorPages : List Nat)
    (brochureCount : Nat) (isA3 : Bool) : Breakdown :=
  let counts := countImpressions pagesPerBrochure colorPages
  let totalBW := counts.1 * brochureCount
  let totalColor := counts.2 * brochureCount
  let effectiveColor := if isA3 then totalColor * 2 else totalColor
  let effectiveBW := if isA3 then totalBW * 2 else totalBW
  let factor : ℚ := if isA3 then 2 else 1
  let swUnit := getPrice bwTiers effectiveBW * factor
  let colorUnit := getPrice colorTiers effectiveColor * factor
  let r := surchargeCalc isA3 totalBW totalColor effectiveBW effectiveColor
    swUnit colorUnit
  let bindingCost : ℚ := if pagesPerBrochure < 5 then 0 else (brochureCount : ℚ) * 0.18
  let bindingCount := if pagesPerBrochure < 5 then 0 else brochureCount
  let totalCost := r.2.2.1 + r.2.2.2 + bindingCost
  { swCount := totalBW
    effectiveSwCount := effectiveBW
    swUnitPrice := swUnit
    swSurcharge := r.1
    swTotal := r.2.2.1
    colorCount := totalColor
    effectiveColorCount := effectiveColor
    colorUnitPrice := colorUnit
    colorSurcharge := r.2.1
    colorTotal := r.2.2.2
    bindingCount := bindingCount
    bindingCost := bindingCost
    totalCost := totalCost }

/-! ## The page-range parser (`parseColorPages`, lines 49–80 of the source) -/

/-- The three error shapes of the parser.  The source returns German
message strings; each carries exactly the data recorded here. -/
inductive PError where
  /-- "Ungültige Zeichen. Erlaubt: Zahlen, Komma, Bindestrich." -/
  | invalidChars : PError
  /-- "Ungültiger Bereich: <token>" -/
  | invalidRange (token : String) : PError
  /-- "Seitenzahl <value> überschreitet die Gesamtseitenzahl (<bound>)." -/
  | pageOutOfBounds (value bound : Nat) : PError
deriving Repr, DecidableEq

/-- The parser's result shape `{ pages: number[]; error?: string }`. -/
structure ParseResult where
  pages : List Nat
  error : Option PError
deriving Repr, DecidableEq

/-- The regex gate `/^[0-9,\-\s]*$/` of the source. -/
def validChars (input : String) : Bool :=
  input.toList.all fun ch =>
    ch.isDigit || ch = ',' || ch = '-' || ch.isWhitespace

/-- `String.prototype.split(sep)` of JavaScript on the character list of a
string (structural, so that concrete inputs evaluate). -/
def splitChars (sep : Char) : List Char → List (List Char)
  | [] => [[]]
  | c :: cs =>
    if c = sep then [] :: splitChars sep cs
    else
      match splitChars sep cs with
      | [] => [[c]]
      | t :: ts => (c :: t) :: ts

/-- `String.prototype.trim()` of JavaScript on a character list. -/
def trimChars (cs : List Char) : List Char :=
  ((cs.dropWhile Char.isWhitespace).reverse.dropWhile Char.isWhitespace).reverse

/-- JavaScript `parseInt(s, 10)` on the strings the parser feeds it
(digits and whitespace only): skip leading whitespace, read the longest
digit prefix, `none` for `NaN` when that prefix is empty. -/
def jsParseInt (cs : List Char) : Option Nat :=
  let ds := (cs.dropWhile Char.isWhitespace).takeWhile Char.isDigit
  if ds.isEmpty then none
  else some (ds.foldl (fun acc c => 10 * acc + (c.toNat - 48)) 0)

/-- `Set.add` of JavaScript on an insertion-ordered duplicate-free list:
appends the element unless already present. -/
def insertSet (acc : List Nat) (n : Nat) : List Nat :=
  if n ∈ acc then acc else acc ++ [n]

/-- The body of the inner `for (let i = start; i <= end; i++)` loop of a
range token, with the remaining iteration count made explicit so that the
recursion is structural: adds each value, aborting with `PageOutOfBounds`
at the first value exceeding `maxPage`. -/
def addRangeLoop (maxPage : Nat) : Nat → Nat → List Nat →
    Except PError (List Nat)
  | 0, _, acc => .ok acc
  | fuel + 1, i, acc =>
    if maxPage < i then .error (.pageOutOfBounds i maxPage)
    else addRangeLoop maxPage fuel (i + 1) (insertSet acc i)

/-- The inner range loop of the source, running for the values
`start, start + 1, …, stop` (not at all when `stop < start`). -/
def addRange (start stop maxPage : Nat) (acc : List Nat) :
    Except PError (List Nat) :=
  addRangeLoop maxPage (stop + 1 - start) start acc

/-- The token loop of `parseColorPages`: processes each comma-separated
token (as a character list) in order, mirroring the early returns of the
source. -/
def parseTokens (maxPage : Nat) (tokens : List (List Char)) (acc : List Nat) :
    ParseResult :=
  match tokens with
  | [] => ⟨acc, none⟩
  | token :: rest =>
    if token.contains '-' then
      match (splitChars '-' token).map trimChars with
      | startStr :: endStr :: _ =>
        match jsParseInt startStr, jsParseInt endStr with
        | some start, some stop =>
          if start > stop then ⟨[], some (.invalidRange ⟨token⟩)⟩
          else
            match addRange start stop maxPage acc with
            | .ok acc2 => parseTokens maxPage rest acc2
            | .error e => ⟨[], some e⟩
        | _, _ => ⟨[], some (.invalidRange ⟨token⟩)⟩
      | _ => ⟨[], some (.invalidRange ⟨token⟩)⟩
    else
      match jsParseInt token with
      | none => parseTokens maxPage rest acc
      | some num =>
        if num > maxPage then ⟨[], some (.pageOutOfBounds num maxPage)⟩
        else parseTokens maxPage rest (insertSet acc num)

/-- `parseColorPages` of the source. -/
def parseColorPages (input : String) (maxPage : Nat) : ParseResult :=
  if !validChars input then ⟨[], some .invalidChars⟩
  else
    parseTokens maxPage
      (((splitChars ',' input.toList).map trimChars).filter (· ≠ [])) []

example :
    parseColorPages "1, 3-5, 7" 10 = ⟨[1, 3, 4, 5, 7], none⟩ := by decide

example :
    parseColorPages "7-19" 8 = ⟨[], some (.pageOutOfBounds 9 8)⟩ := by decide

example :
    parseColorPages "1-3-5" 10 = ⟨[1, 2, 3], none⟩ := by decide

example :
    parseColorPages "1--3" 10 = ⟨[], some (.invalidRange "1--3")⟩ := by decide

example :
    parseColorPages "0" 1 = ⟨[0], none⟩ := by decide

example :
    (calculateBrochureBreakdown 8 [] 1 false).totalCost = 0.93 := by
  have h : List.range 2 = [0, 1] := by decide
  simp [calculateBrochureBreakdown, countImpressions, surchargeCalc, getPrice,
    bwTiers, colorTiers, sheetImpressions, impStep, impCounted, impColor, h]
  norm_num

example :
    (calculateBrochureBreakdown 4 [1] 1 false).colorTotal = 1.2 ∧
    (calculateBrochureBreakdown 4 [1] 1 false).swTotal = 0.1 ∧
    (calculateBrochureBreakdown 4 [1] 1 false).totalCost = 1.3 := by
  have h : List.range 1 = [0] := by decide
  simp [calculateBrochureBreakdown, countImpressions, surchargeCalc, getPrice,
    bwTiers, colorTiers, sheetImpressions, impStep, impCounted, impColor, h]
  norm_num

/-! ## Claim-level characterisation of the imposition layout -/

/-- From the spec's imposition formula: the full list of impressions laid
out for a brochure, sheet by sheet — sheet `j` contributes the slot pairs
`(totalPages - 2j, 1 + 2j)` and `(2 + 2j, totalPages - (2j+1))`. -/
def layoutImpressions (pagesPerBrochure : Nat) : List (Nat × Nat) :=
  let totalPages := (pagesPerBrochure + 3) / 4 * 4
  (List.range (totalPages / 4)).flatMap (sheetImpressions totalPages)

lemma foldl_impStep (p : Nat) (c : List Nat) (l : List (Nat × Nat))
    (a b : Nat) :
    l.foldl (impStep p c) (a, b) =
      (a + l.countP (fun pr => impCounted p pr && !impColor p c pr),
       b + l.countP (fun pr => impCounted p pr && impColor p c pr)) := by
  induction l generalizing a b with
  | nil => simp
  | cons pr l ih =>
    simp only [List.foldl_cons, List.countP_cons, impStep]
    cases hc : impCounted p pr <;> cases hcol : impColor p c pr <;>
      simp [hc, hcol, ih, Prod.ext_iff] <;> omega

lemma foldl_foldl_eq_foldl_flatMap {α β γ : Type} (f : α → List β)
    (g : γ → β → γ) (l : List α) (init : γ) :
    l.foldl (fun acc j => (f j).foldl g acc) init =
      (l.flatMap f).foldl g init := by
  induction l generalizing init with
  | nil => rfl
  | cons j l ih => simp [List.foldl_append, ih]

/-- The imposition loop computes exactly the per-brochure counts of the
flat claim-level layout. -/
lemma countImpressions_eq (p : Nat) (c : List Nat) :
    countImpressions p c =
      ((layoutImpressions p).countP (fun pr => impCounted p pr && !impColor p c pr),
       (layoutImpressions p).countP (fun pr => impCounted p pr && impColor p c pr)) := by
  unfold countImpressions layoutImpressions
  rw [foldl_foldl_eq_foldl_flatMap, foldl_impStep]
  simp

/-- C1: for every `pagesPerBrochure ≥ 1` the engine's per-brochure counts
are exactly the counts over the claimed sheet-by-sheet layout (slot pairs
`(totalPages - 2j, 1 + 2j)` and `(2 + 2j, totalPages - (2j+1))` for sheet
`j`); an impression is counted iff one of its slots is `≤` the unrounded
page count, and a counted impression is color iff some slot that is `≤`
the page count is a member of `colorPages`, else it adds to the
monochrome count. -/
theorem imposition_layout_correct (p : Nat) (c : List Nat) (pr : Nat × Nat)
    (hp : 1 ≤ p) :
    (countImpressions p c).2 =
      (layoutImpressions p).countP
        (fun pr => impCounted p pr && impColor p c pr) ∧
    (countImpressions p c).1 =
      (layoutImpressions p).countP
        (fun pr => impCounted p pr && !impColor p c pr) ∧
    (impCounted p pr = true ↔ pr.1 ≤ p ∨ pr.2 ≤ p) ∧
    (impColor p c pr = true ↔
      (pr.1 ≤ p ∧ pr.1 ∈ c) ∨ (pr.2 ≤ p ∧ pr.2 ∈ c)) := by
  refine ⟨by rw [countImpressions_eq], by rw [countImpressions_eq], ?_, ?_⟩
  · simp [impCounted]
  · simp [impColor]

/-- Witness for C1 at `pagesPerBrochure = 4`, `colorPages = [1]`,
impression `(4, 1)`. -/
theorem imposition_layout_correct_witness :
    (1 ≤ 4) ∧
    ((countImpressions 4 [1]).2 =
      (layoutImpressions 4).countP
        (fun pr => impCounted 4 pr && impColor 4 [1] pr) ∧
    (countImpressions 4 [1]).1 =
      (layoutImpressions 4).countP
        (fun pr => impCounted 4 pr && !impColor 4 [1] pr) ∧
    (impCounted 4 (4, 1) = true ↔ (4, 1).1 ≤ 4 ∨ (4, 1).2 ≤ 4) ∧
    (impColor 4 [1] (4, 1) = true ↔
      ((4, 1).1 ≤ 4 ∧ (4, 1).1 ∈ [1]) ∨ ((4, 1).2 ≤ 4 ∧ (4, 1).2 ∈ [1]))) :=
  ⟨by decide, imposition_layout_correct 4 [1] (4, 1) (by decide)⟩

/-! ## Surcharge branch lemmas -/

lemma surchargeCalc_branch_color (a3 : Bool) (tb tc eb ec : Nat)
    (su cu : ℚ) (h : 0 < tc ∧ ec < 50) :
    (surchargeCalc a3 tb tc eb ec su cu).2.1 = (if a3 then (2.4 : ℚ) else 1.2) ∧
    (surchargeCalc a3 tb tc eb ec su cu).2.2.2 =
      (surchargeCalc a3 tb tc eb ec su cu).2.1 + ((tc : ℚ) - 1) * cu ∧
    (surchargeCalc a3 tb tc eb ec su cu).2.2.1 = (tb : ℚ) * su ∧
    (surchargeCalc a3 tb tc eb ec su cu).1 = 0 := by
  have h0 : 0 < tc + tb := by omega
  unfold surchargeCalc
  simp [h0, h]

lemma surchargeCalc_branch_bw (a3 : Bool) (tb tc eb ec : Nat)
    (su cu : ℚ) (h : tc = 0 ∧ eb < 50) (h0 : 0 < tc + tb) :
    (surchargeCalc a3 tb tc eb ec su cu).1 = (if a3 then (0.9 : ℚ) else 0.45) ∧
    (surchargeCalc a3 tb tc eb ec su cu).2.2.1 =
      (surchargeCalc a3 tb tc eb ec su cu).1 + ((tb : ℚ) - 1) * su ∧
    (surchargeCalc a3 tb tc eb ec su cu).2.2.2 = 0 ∧
    (surchargeCalc a3 tb tc eb ec su cu).2.1 = 0 := by
  have htb : 0 < tb := by omega
  unfold surchargeCalc
  simp [h0, h.1, h.2, htb]

lemma surchargeCalc_branch_plain (a3 : Bool) (tb tc eb ec : Nat)
    (su cu : ℚ) (h1 : ¬(0 < tc ∧ ec < 50)) (h2 : ¬(tc = 0 ∧ eb < 50))
    (h0 : 0 < tc + tb) :
    (surchargeCalc a3 tb tc eb ec su cu).2.2.1 = (tb : ℚ) * su ∧
    (surchargeCalc a3 tb tc eb ec su cu).2.2.2 = (tc : ℚ) * cu ∧
    (surchargeCalc a3 tb tc eb ec su cu).1 = 0 ∧
    (surchargeCalc a3 tb tc eb ec su cu).2.1 = 0 := by
  unfold surchargeCalc
  simp [h0, h1, h2]

lemma surchargeCalc_zero (a3 : Bool) (tb tc eb ec : Nat) (su cu : ℚ)
    (h : tc + tb = 0) :
    (surchargeCalc a3 tb tc eb ec su cu).1 = 0 ∧
    (surchargeCalc a3 tb tc eb ec su cu).2.1 = 0 ∧
    (surchargeCalc a3 tb tc eb ec su cu).2.2.1 = 0 ∧
    (surchargeCalc a3 tb tc eb ec su cu).2.2.2 = 0 := by
  unfold surchargeCalc
  simp [h]

lemma surchargeCalc_values (a3 : Bool) (tb tc eb ec : Nat) (su cu : ℚ) :
    ((surchargeCalc a3 tb tc eb ec su cu).1 = 0 ∨
      (surchargeCalc a3 tb tc eb ec su cu).1 = (if a3 then (0.9 : ℚ) else 0.45)) ∧
    ((surchargeCalc a3 tb tc eb ec su cu).2.1 = 0 ∨
      (surchargeCalc a3 tb tc eb ec su cu).2.1 = (if a3 then (2.4 : ℚ) else 1.2)) := by
  unfold surchargeCalc
  split_ifs <;> simp

/-- C6: the two surcharges are mutually exclusive: in every breakdown at
least one of `swSurcharge`, `colorSurcharge` is zero. -/
theorem surcharge_mutual_exclusive (p : Nat) (c : List Nat) (n : Nat)
    (a3 : Bool) :
    (calculateBrochureBreakdown p c n a3).swSurcharge = 0 ∨
    (calculateBrochureBreakdown p c n a3).colorSurcharge = 0 := by
  show (surchargeCalc a3 _ _ _ _ _ _).1 = 0 ∨ (surchargeCalc a3 _ _ _ _ _ _).2.1 = 0
  unfold surchargeCalc
  split_ifs <;> simp

/-- C5: the grand total of a breakdown is exactly the sum of the
monochrome subtotal, the color subtotal and the binding cost
(`calculateBrochureBreakdown` is a pure function, so determinism is by
construction). -/
theorem total_is_sum (p : Nat) (c : List Nat) (n : Nat) (a3 : Bool)
    (hp : 1 ≤ p) (hn : 1 ≤ n) :
    (calculateBrochureBreakdown p c n a3).totalCost =
      (calculateBrochureBreakdown p c n a3).swTotal +
      (calculateBrochureBreakdown p c n a3).colorTotal +
      (calculateBrochureBreakdown p c n a3).bindingCost := rfl

/-- Witness for C5 at `pagesPerBrochure = 8`, no color pages, one copy,
A4. -/
theorem total_is_sum_witness :
    (1 ≤ 8) ∧ (1 ≤ 1) ∧
    ((calculateBrochureBreakdown 8 [] 1 false).totalCost =
      (calculateBrochureBreakdown 8 [] 1 false).swTotal +
      (calculateBrochureBreakdown 8 [] 1 false).colorTotal +
      (calculateBrochureBreakdown 8 [] 1 false).bindingCost) :=
  ⟨by decide, by decide, total_is_sum 8 [] 1 false (by decide) (by decide)⟩

/-- C2: the surcharge policy.  When the total counted impressions are
positive: if color impressions exist and the effective color count is
below 50, one color impression is billed at the flat surcharge (1.20 at
A4, 2.40 at A3) and the color subtotal is
`surcharge + (totalColor - 1) * colorUnitPrice` while monochrome pays
`totalBW * swUnitPrice`; else if there are no color impressions and the
effective monochrome count is below 50, one monochrome impression is
billed at the flat surcharge (0.45 at A4, 0.90 at A3) and the monochrome
subtotal is `surcharge + (totalBW - 1) * swUnitPrice`; else each category
pays `count * unit price` with no surcharge.  When the total counted
impressions are zero, no surcharge is applied and both subtotals are
zero. -/
theorem surcharge_policy (p : Nat) (c : List Nat) (n : Nat) (a3 : Bool) :
    (0 < (calculateBrochureBreakdown p c n a3).colorCount +
        (calculateBrochureBreakdown p c n a3).swCount →
      ((0 < (calculateBrochureBreakdown p c n a3).colorCount ∧
          (calculateBrochureBreakdown p c n a3).effectiveColorCount < 50) →
        (calculateBrochureBreakdown p c n a3).colorSurcharge =
          (if a3 then (2.4 : ℚ) else 1.2) ∧
        (calculateBrochureBreakdown p c n a3).colorTotal =
          (calculateBrochureBreakdown p c n a3).colorSurcharge +
            (((calculateBrochureBreakdown p c n a3).colorCount : ℚ) - 1) *
              (calculateBrochureBreakdown p c n a3).colorUnitPrice ∧
        (calculateBrochureBreakdown p c n a3).swTotal =
          ((calculateBrochureBreakdown p c n a3).swCount : ℚ) *
            (calculateBrochureBreakdown p c n a3).swUnitPrice ∧
        (calculateBrochureBreakdown p c n a3).swSurcharge = 0) ∧
      (((calculateBrochureBreakdown p c n a3).colorCount = 0 ∧
          (calculateBrochureBreakdown p c n a3).effectiveSwCount < 50) →
        (calculateBrochureBreakdown p c n a3).swSurcharge =
          (if a3 then (0.9 : ℚ) else 0.45) ∧
        (calculateBrochureBreakdown p c n a3).swTotal =
          (calculateBrochureBreakdown p c n a3).swSurcharge +
            (((calculateBrochureBreakdown p c n a3).swCount : ℚ) - 1) *
              (calculateBrochureBreakdown p c n a3).swUnitPrice ∧
        (calculateBrochureBreakdown p c n a3).colorTotal = 0 ∧
        (calculateBrochureBreakdown p c n a3).colorSurcharge = 0) ∧
      (¬(0 < (calculateBrochureBreakdown p c n a3).colorCount ∧
          (calculateBrochureBreakdown p c n a3).effectiveColorCount < 50) →
       ¬((calculateBrochureBreakdown p c n a3).colorCount = 0 ∧
          (calculateBrochureBreakdown p c n a3).effectiveSwCount < 50) →
        (calculateBrochureBreakdown p c n a3).swTotal =
          ((calculateBrochureBreakdown p c n a3).swCount : ℚ) *
            (calculateBrochureBreakdown p c n a3).swUnitPrice ∧
        (calculateBrochureBreakdown p c n a3).colorTotal =
          ((calculateBrochureBreakdown p c n a3).colorCount : ℚ) *
            (calculateBrochureBreakdown p c n a3).colorUnitPrice ∧
        (calculateBrochureBreakdown p c n a3).swSurcharge = 0 ∧
        (calculateBrochureBreakdown p c n a3).colorSurcharge = 0)) ∧
    ((calculateBrochureBreakdown p c n a3).colorCount +
        (calculateBrochureBreakdown p c n a3).swCount = 0 →
      (calculateBrochureBreakdown p c n a3).swSurcharge = 0 ∧
      (calculateBrochureBreakdown p c n a3).colorSurcharge = 0 ∧
      (calculateBrochureBreakdown p c n a3).swTotal = 0 ∧
      (calculateBrochureBreakdown p c n a3).colorTotal = 0) := by
  constructor
  · intro h0
    refine ⟨?_, ?_, ?_⟩
    · intro h
      exact surchargeCalc_branch_color a3 _ _ _ _ _ _ h
    · intro h
      exact surchargeCalc_branch_bw a3 _ _ _ _ _ _ h h0
    · intro h1 h2
      exact surchargeCalc_branch_plain a3 _ _ _ _ _ _ h1 h2 h0
  · intro h
    exact surchargeCalc_zero a3 _ _ _ _ _ _ h

/-- Witness for C2 at `pagesPerBrochure = 4`, `colorPages = [1]`, one
copy, A4 (the color-surcharge branch). -/
theorem surcharge_policy_witness :
    (calculateBrochureBreakdown 4 [1] 1 false).colorSurcharge =
      (if false then (2.4 : ℚ) else 1.2) ∧
    (calculateBrochureBreakdown 4 [1] 1 false).colorTotal =
      (calculateBrochureBreakdown 4 [1] 1 false).colorSurcharge +
        (((calculateBrochureBreakdown 4 [1] 1 false).colorCount : ℚ) - 1) *
          (calculateBrochureBreakdown 4 [1] 1 false).colorUnitPrice ∧
    (calculateBrochureBreakdown 4 [1] 1 false).swTotal =
      ((calculateBrochureBreakdown 4 [1] 1 false).swCount : ℚ) *
        (calculateBrochureBreakdown 4 [1] 1 false).swUnitPrice ∧
    (calculateBrochureBreakdown 4 [1] 1 false).swSurcharge = 0 :=
  ((surcharge_policy 4 [1] 1 false).1 (by decide)).1 ⟨by decide, by decide⟩

/-! ## C10: at least one impression is always counted -/

lemma countP_and_split {α : Type} (l : List α) (f g : α → Bool) :
    l.countP (fun x => f x && g x) + l.countP (fun x => f x && !g x) =
      l.countP f := by
  induction l with
  | nil => simp
  | cons x l ih =>
    simp only [List.countP_cons]
    cases hf : f x <;> cases hg : g x <;> simp [hf, hg] <;> omega

lemma first_impression_mem_layout (p : Nat) (hp : 1 ≤ p) :
    ((p + 3) / 4 * 4 - 2 * 0, 1 + 2 * 0) ∈ layoutImpressions p := by
  unfold layoutImpressions
  refine List.mem_flatMap.2 ⟨0, ?_, ?_⟩
  · have : (p + 3) / 4 * 4 / 4 = (p + 3) / 4 := by
      exact Nat.mul_div_cancel _ (by norm_num)
    simp only [List.mem_range, this]
    omega
  · simp [sheetImpressions]

lemma countImpressions_pos (p : Nat) (c : List Nat) (hp : 1 ≤ p) :
    0 < (countImpressions p c).1 + (countImpressions p c).2 := by
  rw [countImpressions_eq]
  simp only
  rw [Nat.add_comm, countP_and_split]
  refine List.countP_pos_iff.2 ⟨((p + 3) / 4 * 4 - 2 * 0, 1 + 2 * 0), ?_, ?_⟩
  · exact first_impression_mem_layout p hp
  · simp [impCounted]
    omega

/-- C10: for `pagesPerBrochure ≥ 1` and `brochureCount ≥ 1` the total
counted impressions (`totalColor + totalBW` of the source) are at least 1
— sheet 0's first impression carries logical page 1 — so the
`totalImpressions = 0` branch of `calculateBrochureBreakdown` that leaves
all per-category costs at zero is unreachable under these
preconditions. -/
theorem impressions_never_zero (p : Nat) (c : List Nat) (n : Nat)
    (a3 : Bool) (hp : 1 ≤ p) (hn : 1 ≤ n) :
    0 < (calculateBrochureBreakdown p c n a3).colorCount +
      (calculateBrochureBreakdown p c n a3).swCount := by
  have h1 : (calculateBrochureBreakdown p c n a3).colorCount =
      (countImpressions p c).2 * n := rfl
  have h2 : (calculateBrochureBreakdown p c n a3).swCount =
      (countImpressions p c).1 * n := rfl
  rw [h1, h2]
  have key := countImpressions_pos p c hp
  have : ((countImpressions p c).2 + (countImpressions p c).1) * n =
      (countImpressions p c).2 * n + (countImpressions p c).1 * n :=
    Nat.add_mul _ _ _
  rw [← this]
  exact Nat.mul_pos (by omega) (by omega)

/-- Witness for C10 at `pagesPerBrochure = 1`, one copy. -/
theorem impressions_never_zero_witness :
    (1 ≤ 1) ∧
    (0 < (calculateBrochureBreakdown 1 [] 1 false).colorCount +
      (calculateBrochureBreakdown 1 [] 1 false).swCount) :=
  ⟨by decide, impressions_never_zero 1 [] 1 false (by decide) (by decide)⟩

/-! ## C3: tier monotonicity -/

/-- Counterexample to C3: the color tier table is not non-increasing.
At quantity 1000 the looked-up price is 0.18, at quantity 5000 it is
0.38, so raising the quantity raises the unit price. -/
theorem tier_monotonicity_cex :
    (1000 : Nat) ≤ 5000 ∧
    getPrice colorTiers 1000 = 0.18 ∧
    getPrice colorTiers 5000 = 0.38 ∧
    ¬ getPrice colorTiers 5000 ≤ getPrice colorTiers 1000 := by
  refine ⟨by norm_num, ?_, ?_, ?_⟩ <;> norm_num [getPrice, colorTiers]

set_option maxHeartbeats 1600000 in
/-- C3 amended: the monochrome table is non-increasing in the queried
quantity, and the color table is non-increasing on quantities below the
5000 tier; the 5000-tier color price (0.38) breaks monotonicity against
the 1000-tier price (0.18). -/
theorem tier_monotonicity_amended (q1 q2 : Nat) (h : q1 ≤ q2) :
    getPrice bwTiers q2 ≤ getPrice bwTiers q1 ∧
    (q2 < 5000 → getPrice colorTiers q2 ≤ getPrice colorTiers q1) := by
  constructor
  · norm_num [getPrice, bwTiers]
    split_ifs <;> first | omega | norm_num
  · intro hq
    norm_num [getPrice, colorTiers]
    split_ifs <;> first | omega | norm_num

/-- Witness for the amended C3 at quantities 100 and 300. -/
theorem tier_monotonicity_amended_witness :
    (100 : Nat) ≤ 300 ∧
    (getPrice bwTiers 300 ≤ getPrice bwTiers 100 ∧
      (300 < 5000 → getPrice colorTiers 300 ≤ getPrice colorTiers 100)) :=
  ⟨by norm_num, tier_monotonicity_amended 100 300 (by norm_num)⟩

/-! ## C4: the A3 size adjustment -/

/-- Counterexample to C4: with `pagesPerBrochure = 4`, no color pages and
15 copies, the raw monochrome count is 30; the A4 breakdown looks up the
tier at 30 (unit price 0.10) while the A3 breakdown looks it up at the
doubled count 60 (tier 50, price 0.09, doubled to 0.18), so the A3 unit
price is not double the A4 one — and the A4 run gets a monochrome
surcharge (0.45) while the A3 run gets none. -/
theorem a3_doubling_cex :
    (calculateBrochureBreakdown 4 [] 15 true).swUnitPrice ≠
      2 * (calculateBrochureBreakdown 4 [] 15 false).swUnitPrice ∧
    (calculateBrochureBreakdown 4 [] 15 false).swSurcharge = 0.45 ∧
    (calculateBrochureBreakdown 4 [] 15 true).swSurcharge = 0 := by
  have hc : countImpressions 4 [] = (2, 0) := by decide
  refine ⟨?_, ?_, ?_⟩
  · have e3 : (calculateBrochureBreakdown 4 [] 15 true).swUnitPrice =
        getPrice bwTiers ((countImpressions 4 []).1 * 15 * 2) * 2 := rfl
    have e4 : (calculateBrochureBreakdown 4 [] 15 false).swUnitPrice =
        getPrice bwTiers ((countImpressions 4 []).1 * 15) * 1 := rfl
    rw [e3, e4, hc]
    norm_num [getPrice, bwTiers]
  · exact (surchargeCalc_branch_bw false _ _ _ _ _ _
      ⟨by decide, by decide⟩ (by decide)).1
  · exact (surchargeCalc_branch_plain true _ _ _ _ _ _
      (by decide) (by decide) (by decide)).2.2.1

/-- C4 amended: with identical raw counts, the A3 breakdown's effective
counts are exactly double the A4 breakdown's; its unit prices equal twice
the A4-table lookup **at the doubled effective count** (not necessarily
twice the A4 breakdown's unit prices, since doubling may cross a tier
threshold); and its surcharge values, when nonzero, are the doubled
constants (2.40 and 0.90). -/
theorem a3_doubling_amended (p : Nat) (c : List Nat) (n : Nat) :
    (calculateBrochureBreakdown p c n true).effectiveSwCount =
      2 * (calculateBrochureBreakdown p c n false).effectiveSwCount ∧
    (calculateBrochureBreakdown p c n true).effectiveColorCount =
      2 * (calculateBrochureBreakdown p c n false).effectiveColorCount ∧
    (calculateBrochureBreakdown p c n true).swUnitPrice =
      2 * getPrice bwTiers (calculateBrochureBreakdown p c n true).effectiveSwCount ∧
    (calculateBrochureBreakdown p c n true).colorUnitPrice =
      2 * getPrice colorTiers (calculateBrochureBreakdown p c n true).effectiveColorCount ∧
    ((calculateBrochureBreakdown p c n true).colorSurcharge = 0 ∨
      (calculateBrochureBreakdown p c n true).colorSurcharge = 2 * 1.2) ∧
    ((calculateBrochureBreakdown p c n true).swSurcharge = 0 ∨
      (calculateBrochureBreakdown p c n true).swSurcharge = 2 * 0.45) := by
  refine ⟨?_, ?_, ?_, ?_, ?_, ?_⟩
  · show (countImpressions p c).1 * n * 2 = 2 * ((countImpressions p c).1 * n)
    omega
  · show (countImpressions p c).2 * n * 2 = 2 * ((countImpressions p c).2 * n)
    omega
  · show getPrice bwTiers ((countImpressions p c).1 * n * 2) * 2 =
      2 * getPrice bwTiers ((countImpressions p c).1 * n * 2)
    ring
  · show getPrice colorTiers ((countImpressions p c).2 * n * 2) * 2 =
      2 * getPrice colorTiers ((countImpressions p c).2 * n * 2)
    ring
  · have h := (surchargeCalc_values true ((countImpressions p c).1 * n)
      ((countImpressions p c).2 * n) ((countImpressions p c).1 * n * 2)
      ((countImpressions p c).2 * n * 2)
      (getPrice bwTiers ((countImpressions p c).1 * n * 2) * 2)
      (getPrice colorTiers ((countImpressions p c).2 * n * 2) * 2)).2
    rcases h with h | h
    · exact Or.inl h
    · refine Or.inr ?_
      rw [show (calculateBrochureBreakdown p c n true).colorSurcharge =
        (surchargeCalc true ((countImpressions p c).1 * n)
          ((countImpressions p c).2 * n) ((countImpressions p c).1 * n * 2)
          ((countImpressions p c).2 * n * 2)
          (getPrice bwTiers ((countImpressions p c).1 * n * 2) * 2)
          (getPrice colorTiers ((countImpressions p c).2 * n * 2) * 2)).2.1
        from rfl, h]
      norm_num
  · have h := (surchargeCalc_values true ((countImpressions p c).1 * n)
      ((countImpressions p c).2 * n) ((countImpressions p c).1 * n * 2)
      ((countImpressions p c).2 * n * 2)
      (getPrice bwTiers ((countImpressions p c).1 * n * 2) * 2)
      (getPrice colorTiers ((countImpressions p c).2 * n * 2) * 2)).1
    rcases h with h | h
    · exact Or.inl h
    · refine Or.inr ?_
      rw [show (calculateBrochureBreakdown p c n true).swSurcharge =
        (surchargeCalc true ((countImpressions p c).1 * n)
          ((countImpressions p c).2 * n) ((countImpressions p c).1 * n * 2)
          ((countImpressions p c).2 * n * 2)
          (getPrice bwTiers ((countImpressions p c).1 * n * 2) * 2)
          (getPrice colorTiers ((countImpressions p c).2 * n * 2) * 2)).1
        from rfl, h]
      norm_num

/-! ## Parser lemmas -/

lemma mem_insertSet {acc : List Nat} {n x : Nat} :
    x ∈ insertSet acc n ↔ x ∈ acc ∨ x = n := by
  unfold insertSet
  split <;> rename_i h
  · constructor
    · exact Or.inl
    · rintro (hx | rfl)
      · exact hx
      · exact h
  · simp

lemma nodup_insertSet {acc : List Nat} {n : Nat} (h : acc.Nodup) :
    (insertSet acc n).Nodup := by
  unfold insertSet
  split
  · exact h
  · simp_all [List.nodup_append]

lemma addRangeLoop_ok_inv (m : Nat) :
    ∀ (fuel i : Nat) (acc acc' : List Nat),
    (∀ x ∈ acc, x ≤ m) → addRangeLoop m fuel i acc = .ok acc' →
    (∀ x ∈ acc', x ≤ m) ∧ (acc.Nodup → acc'.Nodup) := by
  intro fuel
  induction fuel with
  | zero =>
    intro i acc acc' hb h
    cases h
    exact ⟨hb, id⟩
  | succ n ih =>
    intro i acc acc' hb h
    rw [addRangeLoop] at h
    split at h
    · cases h
    · rename_i hmi
      have hbound : ∀ x ∈ insertSet acc i, x ≤ m := by
        intro x hx
        rcases mem_insertSet.1 hx with hx | rfl
        · exact hb x hx
        · omega
      have := ih (i + 1) (insertSet acc i) acc' hbound h
      exact ⟨this.1, fun hnd => this.2 (nodup_insertSet hnd)⟩

lemma addRangeLoop_oob (m : Nat) :
    ∀ (fuel i : Nat) (acc : List Nat), 1 ≤ fuel → m + 2 ≤ i + fuel →
    addRangeLoop m fuel i acc = .error (.pageOutOfBounds (max i (m + 1)) m) := by
  intro fuel
  induction fuel with
  | zero => intro i acc h1 _; omega
  | succ n ih =>
    intro i acc _ h2
    rw [addRangeLoop]
    split
    · rename_i hmi
      congr 1
      have : max i (m + 1) = i := by
        simp [Nat.max_def]
        omega
      rw [this]
    · rename_i hmi
      have hn1 : 1 ≤ n := by omega
      have hn2 : m + 2 ≤ (i + 1) + n := by omega
      rw [ih (i + 1) (insertSet acc i) hn1 hn2]
      have : max (i + 1) (m + 1) = max i (m + 1) := by
        simp [Nat.max_def]
        split_ifs <;> omega
      rw [this]

/-- When a range contains a value beyond the bound, the range loop aborts
with `PageOutOfBounds` at the first offending value `max start (m+1)`. -/
lemma addRange_oob (start stop m : Nat) (acc : List Nat)
    (hse : start ≤ stop) (hm : m < stop) :
    addRange start stop m acc =
      .error (.pageOutOfBounds (max start (m + 1)) m) := by
  unfold addRange
  exact addRangeLoop_oob m (stop + 1 - start) start acc (by omega) (by omega)

lemma parseTokens_inv (m : Nat) :
    ∀ (tokens : List (List Char)) (acc pages : List Nat),
    (∀ x ∈ acc, x ≤ m) → acc.Nodup →
    parseTokens m tokens acc = ⟨pages, none⟩ →
    (∀ x ∈ pages, x ≤ m) ∧ pages.Nodup := by
  intro tokens
  induction tokens with
  | nil =>
    intro acc pages hb hn heq
    cases heq
    exact ⟨hb, hn⟩
  | cons t rest ih =>
    intro acc pages hb hn heq
    rw [parseTokens] at heq
    repeat' split at heq
    all_goals try cases heq
    all_goals try exact ih acc pages hb hn heq
    all_goals try
      (have h2 := addRangeLoop_ok_inv m _ _ acc _ hb (by assumption)
       exact ih _ pages h2.1 (h2.2 hn) heq)
    all_goals
      (refine ih _ pages ?_ (nodup_insertSet hn) heq
       intro x hx
       rcases mem_insertSet.1 hx with hx | rfl
       · exact hb x hx
       · omega)

lemma parseTokens_error_empty (m : Nat) :
    ∀ (tokens : List (List Char)) (acc : List Nat),
    (parseTokens m tokens acc).error.isSome →
    (parseTokens m tokens acc).pages = [] := by
  intro tokens
  induction tokens with
  | nil => intro acc h; simp [parseTokens] at h
  | cons t rest ih =>
    intro acc
    rw [parseTokens]
    repeat' split
    all_goals try (intro _; rfl)
    all_goals exact ih _

/-- The whole parser short-circuits: whenever an error is reported the
returned page list is empty. -/
lemma parseColorPages_error_empty (input : String) (m : Nat)
    (h : (parseColorPages input m).error.isSome) :
    (parseColorPages input m).pages = [] := by
  unfold parseColorPages at h ⊢
  by_cases hv : (!validChars input) = true
  · simp only [if_pos hv]
  · simp only [if_neg hv] at h ⊢
    exact parseTokens_error_empty m _ [] h

/-- C7: when a range token's values exceed `maxPage`, parsing aborts at
the first value in `[start, stop]` exceeding the bound (`max start
(maxPage+1)`), reports `PageOutOfBounds` citing that value and the bound,
and whenever the parser reports any error it returns an empty page list —
no partial result; in particular `parse "7-19" 8` errors citing value 9
and bound 8. -/
theorem parse_out_of_bounds_aborts (input : String) (m start stop : Nat)
    (acc : List Nat) (hse : start ≤ stop) (hm : m < stop)
    (herr : (parseColorPages input m).error.isSome) :
    (parseColorPages input m).pages = [] ∧
    addRange start stop m acc =
      .error (.pageOutOfBounds (max start (m + 1)) m) ∧
    parseColorPages "7-19" 8 = ⟨[], some (.pageOutOfBounds 9 8)⟩ :=
  ⟨parseColorPages_error_empty input m herr,
   addRange_oob start stop m acc hse hm,
   by decide⟩

/-- Witness for C7 on the input `"7-19"` with bound 8. -/
theorem parse_out_of_bounds_aborts_witness :
    ((7 : Nat) ≤ 19) ∧ ((8 : Nat) < 19) ∧
    ((parseColorPages "7-19" 8).error.isSome = true) ∧
    ((parseColorPages "7-19" 8).pages = [] ∧
     addRange 7 19 8 [] = .error (.pageOutOfBounds (max 7 (8 + 1)) 8) ∧
     parseColorPages "7-19" 8 = ⟨[], some (.pageOutOfBounds 9 8)⟩) :=
  ⟨by decide, by decide, by decide,
   parse_out_of_bounds_aborts "7-19" 8 7 19 [] (by decide) (by decide)
     (by decide)⟩

/-! ## C8: shape of a successfully parsed page set -/

/-- Counterexample to C8: the parser accepts `0`, which is not a positive
page number — `parse "0" 1` succeeds and returns the page set `[0]`. -/
theorem pageset_positive_cex :
    (1 : Nat) ≤ 1 ∧
    parseColorPages "0" 1 = ⟨[0], none⟩ ∧
    ¬ (∀ x ∈ (parseColorPages "0" 1).pages, 1 ≤ x) := by decide

/-- C8 amended: on success every returned page is `≤ maxPage` and the
result has no duplicates; pages are however not guaranteed to be `≥ 1`,
since the parser accepts the value 0. -/
theorem pageset_amended (input : String) (m : Nat) (hm : 1 ≤ m)
    (hok : (parseColorPages input m).error = none) :
    (∀ x ∈ (parseColorPages input m).pages, x ≤ m) ∧
    (parseColorPages input m).pages.Nodup := by
  unfold parseColorPages at hok ⊢
  by_cases hv : (!validChars input) = true
  · rw [if_pos hv] at hok
    simp at hok
  · rw [if_neg hv] at hok ⊢
    refine parseTokens_inv m
      (((splitChars ',' input.toList).map trimChars).filter (· ≠ [])) [] _
      (by simp) (by simp) ?_
    rw [← hok]

/-- Witness for the amended C8 on the spec's scenario input
`"1, 3-5, 7"` with bound 10. -/
theorem pageset_amended_witness :
    ((1 : Nat) ≤ 10) ∧
    ((parseColorPages "1, 3-5, 7" 10).error = none) ∧
    ((∀ x ∈ (parseColorPages "1, 3-5, 7" 10).pages, x ≤ 10) ∧
     (parseColorPages "1, 3-5, 7" 10).pages.Nodup) :=
  ⟨by decide, by decide,
   pageset_amended "1, 3-5, 7" 10 (by decide) (by decide)⟩

/-! ## C9: tokens with two or more hyphens -/

/-- Counterexample to C9: the token `"1--3"` contains two hyphens, yet
the parser *does* report an `InvalidRange` error for it (its second
hyphen-separated part is empty, so `parseInt` yields `NaN`). -/
theorem multi_hyphen_cex :
    ("1--3".toList.count '-' = 2) ∧
    parseColorPages "1--3" 10 = ⟨[], some (.invalidRange "1--3")⟩ := by
  decide

/-- C9 amended: a token containing several hyphens is not rejected for
the extra hyphens — it is processed as the range between its first and
second hyphen-separated parts, with every later part silently ignored,
and `InvalidRange` arises only when one of those first two parts fails to
parse or `start > stop`; in particular `parse "1-3-5" 10` succeeds with
page set `{1, 2, 3}`. -/
theorem multi_hyphen_amended (token : List Char) (m a b : Nat)
    (acc : List Nat) (s0 s1 : List Char) (rest : List (List Char))
    (hc : token.contains '-' = true)
    (hparts : (splitChars '-' token).map trimChars = s0 :: s1 :: rest)
    (ha : jsParseInt s0 = some a) (hb : jsParseInt s1 = some b) :
    (parseTokens m [token] acc =
      if a > b then ⟨[], some (.invalidRange ⟨token⟩)⟩
      else
        match addRange a b m acc with
        | .ok acc2 => ⟨acc2, none⟩
        | .error e => ⟨[], some e⟩) ∧
    parseColorPages "1-3-5" 10 = ⟨[1, 2, 3], none⟩ := by
  refine ⟨?_, by decide⟩
  rw [parseTokens, if_pos hc]
  simp only [hparts, ha, hb]
  split
  · rfl
  · split
    · rfl
    · rfl

/-- Witness for the amended C9 on the token `"1-3-5"` with bound 10. -/
theorem multi_hyphen_amended_witness :
    ("1-3-5".toList.contains '-' = true) ∧
    ((splitChars '-' "1-3-5".toList).map trimChars =
      ['1'] :: ['3'] :: [['5']]) ∧
    (jsParseInt ['1'] = some 1) ∧ (jsParseInt ['3'] = some 3) ∧
    ((parseTokens 10 ["1-3-5".toList] [] =
      if 1 > 3 then ⟨[], some (.invalidRange ⟨"1-3-5".toList⟩)⟩
      else
        match addRange 1 3 10 [] with
        | .ok acc2 => ⟨acc2, none⟩
        | .error e => ⟨[], some e⟩) ∧
    parseColorPages "1-3-5" 10 = ⟨[1, 2, 3], none⟩) :=
  ⟨by decide, by decide, by decide, by decide,
   multi_hyphen_amended "1-3-5".toList 10 1 3 [] ['1'] ['3'] [['5']]
     (by decide) (by decide) (by decide) (by decide)⟩

end Brochure
